import Mathlib

/-!
Shallow embedding of kubeone's prerequisite pipeline
(`pkg/tasks/prerequisites.go`).

Remote side effects (raw script execution, templated command execution,
sleeping, closing the cached SSH connection) are recorded as an explicit
`Effect` trace.  External collaborators that are not part of this slice of
the repository (the `scripts` template renderers, the configuration
bundle's file reader, the admission/encryption manifest generators, and
the remote runner's results) are supplied through an `Env` of oracles, so
every theorem quantifies over their behaviour.  Each function returns the
trace of effects it performed together with an `Except Err` result,
mirroring Go's `error` returns; `generateConfigurationFiles` additionally
returns the updated configuration bundle.
-/

namespace KubeOne

/-- Opaque error value, standing for a Go `error`. -/
structure Err where
  msg : String
deriving DecidableEq, Repr

/-- Wrapping of an error with a context message, as done by
`errors.Wrap` / `fmt.Errorf` in the source. -/
def wrapErr (m : String) (err : Err) : Err :=
  ⟨m ++ ": " ++ err.msg⟩

/-- `kubeoneapi.OperatingSystemName` values referenced by the source file,
plus `unknown` for any value absent from the dispatch map. -/
inductive OperatingSystemName where
  | amazon
  | centos
  | debian
  | flatcar
  | rhel
  | ubuntu
  | unknown
deriving DecidableEq, Repr

/-- The fields of `kubeoneapi.HostConfig` read by this slice:
a stable ID and the detected operating system. -/
structure HostConfig where
  id : Nat
  operatingSystem : OperatingSystemName
deriving DecidableEq, Repr

/-- One entry of `s.LiveCluster.ControlPlane` / `.StaticWorkers`:
its host config and the result of `host.Initialized()`. -/
structure LiveHost where
  config : HostConfig
  initialized : Bool
deriving DecidableEq, Repr

/-- `s.Cluster.Proxy`: the three proxy variables. -/
structure ProxySpec where
  http : String
  https : String
  noProxy : String
deriving DecidableEq, Repr

/-- `StaticAuditLog.Config`: path of the user-supplied policy file. -/
structure StaticAuditLogConfig where
  policyFilePath : String
deriving DecidableEq, Repr

/-- `s.Cluster.Features.StaticAuditLog` (non-nil case). -/
structure StaticAuditLog where
  enable : Bool
  config : StaticAuditLogConfig
deriving DecidableEq, Repr

/-- `PodNodeSelector.Config`: path of the user-supplied selector file. -/
structure PodNodeSelectorConfig where
  configFilePath : String
deriving DecidableEq, Repr

/-- `s.Cluster.Features.PodNodeSelector` (non-nil case). -/
structure PodNodeSelector where
  enable : Bool
  config : PodNodeSelectorConfig
deriving DecidableEq, Repr

/-- `s.Cluster.Features.EncryptionProviders`: only the custom
configuration string is read by this slice. -/
structure EncryptionProviders where
  customEncryptionConfiguration : String
deriving DecidableEq, Repr

/-- The feature toggles read by `generateConfigurationFiles`.
A `none` models a nil pointer in Go. -/
structure Features where
  staticAuditLog : Option StaticAuditLog
  podNodeSelector : Option PodNodeSelector
  encryptionProviders : EncryptionProviders
deriving DecidableEq, Repr

/-- `s.Cluster.CloudProvider`: only `CloudConfig` is read here. -/
structure CloudProviderSpec where
  cloudConfig : String
deriving DecidableEq, Repr

/-- `s.Cluster.Versions`: the target Kubernetes version string. -/
structure Versions where
  kubernetes : String
deriving DecidableEq, Repr

/-- The slice of the cluster specification consumed by this file. -/
structure Cluster where
  versions : Versions
  cloudProvider : CloudProviderSpec
  features : Features
  proxy : ProxySpec
deriving DecidableEq, Repr

/-- The configuration bundle: an append-only list of
(relative path, content) pairs; a later add with the same path
shadows an earlier one (last-writer wins on lookup). -/
abbrev Bundle := List (String × String)

/-- `s.Configuration.AddFile(path, content)`: append an entry. -/
def addFile (b : Bundle) (path content : String) : Bundle :=
  b ++ [(path, content)]

/-- The relative paths present in a bundle. -/
def bundlePaths (b : Bundle) : List String :=
  b.map Prod.fst

/-- `s.LiveCluster`: observed control-plane and static-worker hosts. -/
structure LiveCluster where
  controlPlane : List LiveHost
  staticWorkers : List LiveHost
deriving DecidableEq, Repr

/-- The slice of `state.State` consumed by this file.
`shouldEnableEncryption`, `encryptionEnabled` and
`encryptionProviderConfigName` stand for the methods
`s.ShouldEnableEncryption()`, `s.EncryptionEnabled()` and
`s.GetEncryptionProviderConfigName()`, whose bodies are outside this
slice; modelled from the spec as stable observations of the run
context (they do not change during generation). -/
structure State where
  cluster : Cluster
  configuration : Bundle
  liveCluster : LiveCluster
  forceInstall : Bool
  manifestFilePath : String
  workDir : String
  shouldEnableEncryption : Bool
  encryptionEnabled : Bool
  encryptionProviderConfigName : String
deriving DecidableEq, Repr

/-- A remote side effect performed against a host. -/
inductive Effect where
  /-- `s.Runner.RunRaw(cmd)` was issued. -/
  | runRaw (cmd : String)
  /-- `s.Runner.Run(tpl, vars)` was issued; the recorded string is the
  command after template-variable substitution. -/
  | run (cmd : String)
  /-- `time.Sleep` of the given number of minutes. -/
  | sleepMinutes (n : Nat)
  /-- `s.Runner.Conn.Close()` was called on the cached connection. -/
  | closeConn
deriving DecidableEq, Repr

/-- Oracles for the external collaborators of this slice.
Modelled from the spec: the `scripts` package renderers, the bundle's
file reader (`AddFilePath` resolves the source path against the manifest
file's directory and reads it), the admission/encryption generators and
the YAML serializer, and the outcomes of remote execution.  Each is a
pure function, so a theorem quantifying over `Env` covers every
behaviour of the collaborators. -/
structure Env where
  /-- File content read by `Configuration.AddFilePath`, keyed by the
  source path and the manifest file path it is resolved against. -/
  readFile : String → String → Except Err String
  /-- `admissionconfig.NewAdmissionConfig(version, podNodeSelector)`. -/
  newAdmissionConfig : String → PodNodeSelector → Except Err String
  /-- `encryptionproviders.NewEncyrptionProvidersConfig(s)`; depends on
  the cluster slice of the state. -/
  newEncryptionProvidersConfig : Cluster → Except Err String
  /-- `templates.KubernetesToYAML([...])` applied to the generated
  encryption-providers object. -/
  kubernetesToYAML : String → Except Err String
  /-- `scripts.EnvironmentFile(cluster)`. -/
  environmentFile : Cluster → Except Err String
  /-- `scripts.DaemonsEnvironmentDropIn(daemons...)`. -/
  daemonsEnvironmentDropIn : List String → Except Err String
  /-- `scripts.DisableNMCloudSetup()`. -/
  disableNMCloudSetupScript : Except Err String
  /-- `scripts.KubeadmDebian(cluster, forceInstall)`. -/
  kubeadmDebian : Cluster → Bool → Except Err String
  /-- `scripts.KubeadmCentOS(cluster, forceInstall)`. -/
  kubeadmCentOS : Cluster → Bool → Except Err String
  /-- `scripts.KubeadmAmazonLinux(cluster, forceInstall)`. -/
  kubeadmAmazonLinux : Cluster → Bool → Except Err String
  /-- `scripts.KubeadmFlatcar(cluster)`: the source passes only the
  cluster, not the force-install flag. -/
  kubeadmFlatcar : Cluster → Except Err String
  /-- Result of `s.Runner.RunRaw(cmd)` (stdout, stderr on success). -/
  runRawResult : String → Except Err (String × String)
  /-- Result of `s.Runner.Run(cmd, vars)` after substitution. -/
  runResult : String → Except Err (String × String)

/-! ## generateConfigurationFiles (lines 60-101)

The Go function mutates `s.Configuration` in place and returns an
`error`; here it returns the bundle at exit together with the result.
It is split into the three conditional blocks of the source body,
sequenced exactly as the early returns sequence them. -/

/-- Lines 63-67: if static audit logging is enabled, read the policy
file and add it under `cfg/audit-policy.yaml`; a read failure aborts
with the bundle unchanged by this block. -/
def auditStep (e : Env) (s : State) (b : Bundle) : Bundle × Except Err Unit :=
  match s.cluster.features.staticAuditLog with
  | none => (b, .ok ())
  | some sal =>
    if sal.enable then
      match e.readFile sal.config.policyFilePath s.manifestFilePath with
      | .error err => (b, .error (wrapErr "unable to add policy file" err))
      | .ok content => (addFile b "cfg/audit-policy.yaml" content, .ok ())
    else (b, .ok ())

/-- Lines 68-78: if the pod-node-selector feature is enabled, generate
the admission configuration, add it, then read and add the
user-supplied selector config; either failure aborts, leaving behind
the entries added so far in this block. -/
def podNodeSelectorStep (e : Env) (s : State) (b : Bundle) : Bundle × Except Err Unit :=
  match s.cluster.features.podNodeSelector with
  | none => (b, .ok ())
  | some pns =>
    if pns.enable then
      match e.newAdmissionConfig s.cluster.versions.kubernetes pns with
      | .error err =>
        (b, .error (wrapErr "failed to generate admissionconfiguration manifest" err))
      | .ok admissionCfg =>
        let b1 := addFile b "cfg/admission-config.yaml" admissionCfg
        match e.readFile pns.config.configFilePath s.manifestFilePath with
        | .error err =>
          (b1, .error (wrapErr "failed to add podnodeselector config file" err))
        | .ok content => (addFile b1 "cfg/podnodeselector.yaml" content, .ok ())
    else (b, .ok ())

/-- Lines 80-98: if encryption should be enabled or already is, add the
provider configuration under `cfg/<configFileName>`: a non-empty custom
configuration is copied verbatim; otherwise a config is generated and
serialized only when `ShouldEnableEncryption()` holds. -/
def encryptionStep (e : Env) (s : State) (b : Bundle) : Bundle × Except Err Unit :=
  if s.shouldEnableEncryption || s.encryptionEnabled then
    let configFileName := s.encryptionProviderConfigName
    if s.cluster.features.encryptionProviders.customEncryptionConfiguration != "" then
      (addFile b ("cfg/" ++ configFileName)
        s.cluster.features.encryptionProviders.customEncryptionConfiguration, .ok ())
    else if s.shouldEnableEncryption then
      match e.newEncryptionProvidersConfig s.cluster with
      | .error err => (b, .error err)
      | .ok obj =>
        match e.kubernetesToYAML obj with
        | .error err => (b, .error err)
        | .ok config => (addFile b ("cfg/" ++ configFileName) config, .ok ())
    else (b, .ok ())
  else (b, .ok ())

/-- Lines 60-101, `generateConfigurationFiles`: add the cloud config
unconditionally, then run the three conditional blocks in source order,
stopping at the first failure.  Returns the bundle at exit and the
result. -/
def generateConfigurationFiles (e : Env) (s : State) : Bundle × Except Err Unit :=
  let b0 := addFile s.configuration "cfg/cloud-config" s.cluster.cloudProvider.cloudConfig
  match auditStep e s b0 with
  | (b, .error err) => (b, .error err)
  | (b1, .ok _) =>
    match podNodeSelectorStep e s b1 with
    | (b, .error err) => (b, .error err)
    | (b2, .ok _) => encryptionStep e s b2

/-! ## Proxy setup (lines 116-139, 281-295) -/

/-- Lines 130-139, `createEnvironmentFile`: render the environment-file
script and execute it; the remote command is issued unconditionally
whenever rendering succeeds. -/
def createEnvironmentFile (e : Env) (s : State) : List Effect × Except Err Unit :=
  match e.environmentFile s.cluster with
  | .error err => ([], .error err)
  | .ok cmd =>
    match e.runRawResult cmd with
    | .error err => ([.runRaw cmd], .error err)
    | .ok _ => ([.runRaw cmd], .ok ())

/-- Lines 281-295, `containerRuntimeEnvironment`: a no-op returning nil
when all three proxy variables are empty; otherwise render and execute
the drop-in script for docker/containerd/kubelet. -/
def containerRuntimeEnvironment (e : Env) (s : State) : List Effect × Except Err Unit :=
  if s.cluster.proxy.http == "" && s.cluster.proxy.https == "" && s.cluster.proxy.noProxy == "" then
    ([], .ok ())
  else
    match e.daemonsEnvironmentDropIn ["docker", "containerd", "kubelet"] with
    | .error err => ([], .error err)
    | .ok cmd =>
      match e.runRawResult cmd with
      | .error err => ([.runRaw cmd], .error err)
      | .ok _ => ([.runRaw cmd], .ok ())

/-- Lines 116-128, `setupProxy`: create the environment file, then
configure the container-runtime proxy drop-in; each failure is wrapped
and returned. -/
def setupProxy (e : Env) (s : State) : List Effect × Except Err Unit :=
  match createEnvironmentFile e s with
  | (t, .error err) => (t, .error (wrapErr "failed to create environment file" err))
  | (t1, .ok _) =>
    match containerRuntimeEnvironment e s with
    | (t2, .error err) =>
      (t1 ++ t2, .error (wrapErr "failed to configure proxy for docker daemon" err))
    | (t2, .ok _) => (t1 ++ t2, .ok ())

/-! ## installKubeadm and the OS dispatch map (lines 174-227) -/

/-- The distinct install procedures appearing as values of the dispatch
map in `installKubeadm`. -/
inductive InstallProc where
  | amazonLinux
  | centOS
  | debian
  | flatcar
deriving DecidableEq, Repr

/-- Lines 175-182: the literal dispatch map of `installKubeadm`, as a
pure function from OS name to the selected procedure; `none` for a key
absent from the map. -/
def installKubeadmDispatch : OperatingSystemName → Option InstallProc
  | .amazon => some .amazonLinux
  | .centos => some .centOS
  | .debian => some .debian
  | .flatcar => some .flatcar
  | .rhel => some .centOS
  | .ubuntu => some .debian
  | .unknown => none

/-- Lines 185-194, `installKubeadmDebian`: render the Debian script
with the cluster and the force-install flag, then execute it. -/
def installKubeadmDebian (e : Env) (s : State) : List Effect × Except Err Unit :=
  match e.kubeadmDebian s.cluster s.forceInstall with
  | .error err => ([], .error err)
  | .ok cmd =>
    match e.runRawResult cmd with
    | .error err => ([.runRaw cmd], .error err)
    | .ok _ => ([.runRaw cmd], .ok ())

/-- Lines 196-205, `installKubeadmCentOS`: render the CentOS script
with the cluster and the force-install flag, then execute it. -/
def installKubeadmCentOS (e : Env) (s : State) : List Effect × Except Err Unit :=
  match e.kubeadmCentOS s.cluster s.forceInstall with
  | .error err => ([], .error err)
  | .ok cmd =>
    match e.runRawResult cmd with
    | .error err => ([.runRaw cmd], .error err)
    | .ok _ => ([.runRaw cmd], .ok ())

/-- Lines 207-216, `installKubeadmAmazonLinux`: render the Amazon Linux
script with the cluster and the force-install flag, then execute it. -/
def installKubeadmAmazonLinux (e : Env) (s : State) : List Effect × Except Err Unit :=
  match e.kubeadmAmazonLinux s.cluster s.forceInstall with
  | .error err => ([], .error err)
  | .ok cmd =>
    match e.runRawResult cmd with
    | .error err => ([.runRaw cmd], .error err)
    | .ok _ => ([.runRaw cmd], .ok ())

/-- Lines 218-227, `installKubeadmFlatcar`: render the Flatcar script
from the cluster alone (the source does not pass `s.ForceInstall`),
then execute it. -/
def installKubeadmFlatcar (e : Env) (s : State) : List Effect × Except Err Unit :=
  match e.kubeadmFlatcar s.cluster with
  | .error err => ([], .error err)
  | .ok cmd =>
    match e.runRawResult cmd with
    | .error err => ([.runRaw cmd], .error err)
    | .ok _ => ([.runRaw cmd], .ok ())

/-- Run the procedure selected by the dispatch map. -/
def runInstallProc : InstallProc → Env → State → List Effect × Except Err Unit
  | .amazonLinux => installKubeadmAmazonLinux
  | .centOS => installKubeadmCentOS
  | .debian => installKubeadmDebian
  | .flatcar => installKubeadmFlatcar

/-- Lines 174-183, `installKubeadm`: resolve the node's OS against the
dispatch map and run the selected procedure.  Modelled from the spec
for the `runOnOS` helper (outside this slice): an OS absent from the
map is a fatal configuration error for that host, not a silent skip. -/
def installKubeadm (e : Env) (s : State) (node : HostConfig) : List Effect × Except Err Unit :=
  match installKubeadmDispatch node.operatingSystem with
  | none => ([], .error ⟨"unknown operating system"⟩)
  | some p => runInstallProc p e s

/-! ## installPrerequisites (lines 39-58, 103-114) -/

/-- Lines 103-114, `installPrerequisitesOnNode`: set up the proxy, then
install kubeadm for the node's OS, wrapping an install failure. -/
def installPrerequisitesOnNode (e : Env) (s : State) (node : HostConfig) :
    List Effect × Except Err Unit :=
  match setupProxy e s with
  | (t, .error err) => (t, .error err)
  | (t1, .ok _) =>
    match installKubeadm e s node with
    | (t2, .error err) => (t1 ++ t2, .error (wrapErr "failed to install kubeadm" err))
    | (t2, .ok _) => (t1 ++ t2, .ok ())

/-- Lines 49-56: the image pre-pull command after substitution of the
KUBERNETES_VERSION template variable. -/
def prePullImagesCmd (s : State) : String :=
  "sudo kubeadm config images pull --kubernetes-version " ++ s.cluster.versions.kubernetes

/-- Lines 46-57: the pre-pull closure run on each node; issues the
templated command and returns its error. -/
def prePullImagesOnNode (e : Env) (s : State) : List Effect × Except Err Unit :=
  let cmd := prePullImagesCmd s
  match e.runResult cmd with
  | .error err => ([.run cmd], .error err)
  | .ok _ => ([.run cmd], .ok ())

/-- Lines 39-58, `installPrerequisites`, projected onto one host:
the first `RunTaskOnAllNodes` invocation runs
`installPrerequisitesOnNode`; only when it succeeds does the second
invocation run the pre-pull closure.  Modelled from the spec for the
task runner (outside this slice): on each host the effects of the first
invocation precede those of the second, and the second phase is not
attempted when the first fails. -/
def installPrerequisitesHost (e : Env) (s : State) (node : HostConfig) :
    List Effect × Except Err Unit :=
  match installPrerequisitesOnNode e s node with
  | (t, .error err) => (t, .error (wrapErr "failed to install prerequisites" err))
  | (t1, .ok _) =>
    match prePullImagesOnNode e s with
    | (t2, r) => (t1 ++ t2, r)

/-! ## disableNMCloudSetup (lines 141-172) -/

/-- All live hosts consulted by the loop: control plane followed by
static workers (lines 146-147). -/
def allHosts (s : State) : List LiveHost :=
  s.liveCluster.controlPlane ++ s.liveCluster.staticWorkers

/-- Lines 148-169: the loop body over live-cluster hosts.  For every
entry matching the node's ID that is not initialized: render the
script (a render failure is returned), issue it while discarding the
execution result, sleep one minute, close the cached connection. -/
def disableNMCloudSetupLoop (e : Env) (node : HostConfig) :
    List LiveHost → List Effect × Except Err Unit
  | [] => ([], .ok ())
  | host :: rest =>
    if node.id == host.config.id && !host.initialized then
      match e.disableNMCloudSetupScript with
      | .error err => ([], .error err)
      | .ok cmd =>
        match disableNMCloudSetupLoop e node rest with
        | (t, r) => ([.runRaw cmd, .sleepMinutes 1, .closeConn] ++ t, r)
    else
      disableNMCloudSetupLoop e node rest

/-- Lines 141-172, `disableNMCloudSetup`: immediately return nil for a
node whose OS is not RHEL; otherwise run the loop over all live
hosts. -/
def disableNMCloudSetup (e : Env) (s : State) (node : HostConfig) :
    List Effect × Except Err Unit :=
  if node.operatingSystem ≠ OperatingSystemName.rhel then ([], .ok ())
  else disableNMCloudSetupLoop e node (allHosts s)

/-- Boolean reading of "static audit logging is enabled". -/
def staticAuditLogEnabled (c : Cluster) : Bool :=
  match c.features.staticAuditLog with
  | some sal => sal.enable
  | none => false

/-- Boolean reading of "the pod-node-selector feature is enabled". -/
def podNodeSelectorEnabled (c : Cluster) : Bool :=
  match c.features.podNodeSelector with
  | some pns => pns.enable
  | none => false

/-- The effect block issued for one matching uninitialized live host in
`disableNMCloudSetup`: raw script, one-minute wait, connection close. -/
def nmBlock (cmd : String) : List Effect :=
  [.runRaw cmd, .sleepMinutes 1, .closeConn]

/-! ## Concrete fixtures used by witnesses and counterexamples -/

/-- A concrete cluster: no proxy, no optional features. -/
def cluster0 : Cluster where
  versions := ⟨"1.29.4"⟩
  cloudProvider := ⟨"cloud-cfg-content"⟩
  features :=
    { staticAuditLog := none
      podNodeSelector := none
      encryptionProviders := ⟨""⟩ }
  proxy := ⟨"", "", ""⟩

/-- A concrete run state over `cluster0` with an empty bundle. -/
def state0 : State where
  cluster := cluster0
  configuration := []
  liveCluster := ⟨[], []⟩
  forceInstall := false
  manifestFilePath := "kubeone.yaml"
  workDir := "/tmp/k1"
  shouldEnableEncryption := false
  encryptionEnabled := false
  encryptionProviderConfigName := "encryption-providers.yaml"

/-- A concrete environment whose renderers and remote runs all succeed;
the per-OS kubeadm renderers produce scripts that depend visibly on the
force-install flag where the source passes it. -/
def env0 : Env where
  readFile := fun p _ => .ok ("file-content:" ++ p)
  newAdmissionConfig := fun v _ => .ok ("admission:" ++ v)
  newEncryptionProvidersConfig := fun _ => .ok "enc-obj"
  kubernetesToYAML := fun o => .ok ("yaml:" ++ o)
  environmentFile := fun _ => .ok "env-file-script"
  daemonsEnvironmentDropIn := fun _ => .ok "dropin-script"
  disableNMCloudSetupScript := .ok "disable-nm-script"
  kubeadmDebian := fun _ f => .ok (if f then "debian-install-force" else "debian-install")
  kubeadmCentOS := fun _ f => .ok (if f then "centos-install-force" else "centos-install")
  kubeadmAmazonLinux := fun _ f => .ok (if f then "amzn-install-force" else "amzn-install")
  kubeadmFlatcar := fun _ => .ok "flatcar-install"
  runRawResult := fun _ => .ok ("", "")
  runResult := fun _ => .ok ("", "")

/-! ## C5: the OS dispatch map -/

/-- C5: the dispatch mapping used by `installKubeadm` is a fixed pure
map: RHEL and CentOS select the CentOS procedure, Debian and Ubuntu
select the Debian procedure, and the procedure run by `installKubeadm`
depends only on the node's operating system, so a fixed OS value
selects the same procedure on every invocation. -/
theorem installKubeadm_dispatch_fixed :
    installKubeadmDispatch .rhel = some InstallProc.centOS
    ∧ installKubeadmDispatch .centos = some InstallProc.centOS
    ∧ installKubeadmDispatch .debian = some InstallProc.debian
    ∧ installKubeadmDispatch .ubuntu = some InstallProc.debian
    ∧ ∀ (e : Env) (s : State) (n1 n2 : HostConfig),
        n1.operatingSystem = n2.operatingSystem →
        installKubeadm e s n1 = installKubeadm e s n2 := by
  refine ⟨rfl, rfl, rfl, rfl, ?_⟩
  intro e s n1 n2 h
  unfold installKubeadm
  rw [h]

/-- Witness for C5 at concrete inputs: two distinct RHEL nodes get the
same invocation. -/
theorem installKubeadm_dispatch_fixed_witness :
    installKubeadm env0 state0 ⟨1, .rhel⟩ = installKubeadm env0 state0 ⟨2, .rhel⟩ :=
  installKubeadm_dispatch_fixed.2.2.2.2 env0 state0 ⟨1, .rhel⟩ ⟨2, .rhel⟩ rfl

/-! ## C9: non-RHEL hosts are untouched by disableNMCloudSetup -/

/-- C9: for every host whose operating system is not exactly RHEL
(including CentOS), `disableNMCloudSetup` returns nil immediately: no
remote command, no sleep, no connection close. -/
theorem disableNMCloudSetup_non_rhel_noop (e : Env) (s : State) (node : HostConfig)
    (h : node.operatingSystem ≠ OperatingSystemName.rhel) :
    disableNMCloudSetup e s node = ([], .ok ()) := by
  unfold disableNMCloudSetup
  simp [h]

/-- Witness for C9 at a concrete CentOS node. -/
theorem disableNMCloudSetup_non_rhel_noop_witness :
    disableNMCloudSetup env0 state0 ⟨7, .centos⟩ = ([], .ok ()) :=
  disableNMCloudSetup_non_rhel_noop env0 state0 ⟨7, .centos⟩ (by decide)

/-! ## C6 and C2: the disableNMCloudSetup loop -/

/-- When every live host matching the node's ID is initialized, the
loop performs no effects and returns nil. -/
theorem disableNMCloudSetupLoop_all_initialized (e : Env) (node : HostConfig)
    (l : List LiveHost)
    (hyp : ∀ h ∈ l, h.config.id = node.id → h.initialized = true) :
    disableNMCloudSetupLoop e node l = ([], .ok ()) := by
  induction l with
  | nil => rfl
  | cons host rest ih =>
    have hrest := ih (fun h hm => hyp h (List.mem_cons_of_mem _ hm))
    have hcond : (node.id == host.config.id && !host.initialized) = false := by
      by_cases hid : node.id = host.config.id
      · have := hyp host (List.mem_cons_self _ _) hid.symm
        simp [hid, this]
      · simp [hid]
    simp [disableNMCloudSetupLoop, hcond, hrest]

/-- C6: an already-initialized RHEL host (every live-cluster entry with
its ID reports Initialized) is never sent the disabling command: the
trace is empty (no remote command, no wait, no connection close) and
the result is nil. -/
theorem disableNMCloudSetup_initialized_skip (e : Env) (s : State) (node : HostConfig)
    (hos : node.operatingSystem = OperatingSystemName.rhel)
    (hinit : ∀ h ∈ allHosts s, h.config.id = node.id → h.initialized = true) :
    disableNMCloudSetup e s node = ([], .ok ()) := by
  unfold disableNMCloudSetup
  simp [hos]
  exact disableNMCloudSetupLoop_all_initialized e node (allHosts s) hinit

/-- Witness for C6: a concrete initialized RHEL live host. -/
theorem disableNMCloudSetup_initialized_skip_witness :
    disableNMCloudSetup env0
      { state0 with liveCluster := ⟨[⟨⟨5, .rhel⟩, true⟩], []⟩ } ⟨5, .rhel⟩
      = ([], .ok ()) := by
  apply disableNMCloudSetup_initialized_skip
  · rfl
  · decide

/-- The trace `disableNMCloudSetup` is expected to produce on a RHEL
node once the script has rendered to `cmd`: one `nmBlock` per matching
uninitialized live host, in list order. -/
def nmTrace (cmd : String) (node : HostConfig) : List LiveHost → List Effect
  | [] => []
  | host :: rest =>
    if node.id == host.config.id && !host.initialized then
      nmBlock cmd ++ nmTrace cmd node rest
    else
      nmTrace cmd node rest

/-- The loop's full behaviour when the script renders: the `nmTrace`
of the host list, and a nil result regardless of the remote
execution's outcome. -/
theorem disableNMCloudSetupLoop_trace (e : Env) (node : HostConfig) (cmd : String)
    (hcmd : e.disableNMCloudSetupScript = .ok cmd)
    (l : List LiveHost) :
    disableNMCloudSetupLoop e node l = (nmTrace cmd node l, .ok ()) := by
  induction l with
  | nil => rfl
  | cons host rest ih =>
    unfold disableNMCloudSetupLoop nmTrace
    by_cases hc : (node.id == host.config.id && !host.initialized) = true
    · rw [if_pos hc, if_pos hc, hcmd, ih]
      rfl
    · rw [if_neg hc, if_neg hc, ih]

/-- C2: on a RHEL node, whenever the disabling script renders, the
result is nil no matter what the remote execution returns (the
execution error is discarded; the runner's outcome oracle is not even
consulted), and for every matching uninitialized live host the raw
command is followed by the fixed one-minute wait and then an
unconditional close of the cached connection (the `nmBlock` shape of
the trace). -/
theorem disableNMCloudSetup_discard_and_close (e : Env) (s : State) (node : HostConfig)
    (cmd : String)
    (hos : node.operatingSystem = OperatingSystemName.rhel)
    (hcmd : e.disableNMCloudSetupScript = .ok cmd) :
    disableNMCloudSetup e s node = (nmTrace cmd node (allHosts s), .ok ())
    ∧ ∀ rr, disableNMCloudSetup { e with runRawResult := rr } s node
        = disableNMCloudSetup e s node := by
  constructor
  · unfold disableNMCloudSetup
    simp [hos]
    exact disableNMCloudSetupLoop_trace e node cmd hcmd (allHosts s)
  · intro rr
    unfold disableNMCloudSetup
    simp [hos]
    rw [disableNMCloudSetupLoop_trace { e with runRawResult := rr } node cmd hcmd (allHosts s),
      disableNMCloudSetupLoop_trace e node cmd hcmd (allHosts s)]

/-- Witness for C2: one uninitialized RHEL control-plane host; the
remote run succeeds, yet the connection is still closed after the wait
and the result is nil. -/
theorem disableNMCloudSetup_discard_and_close_witness :
    disableNMCloudSetup env0
      { state0 with liveCluster := ⟨[⟨⟨5, .rhel⟩, false⟩], []⟩ } ⟨5, .rhel⟩
      = ([.runRaw "disable-nm-script", .sleepMinutes 1, .closeConn], .ok ()) := by
  have h := (disableNMCloudSetup_discard_and_close env0
    { state0 with liveCluster := ⟨[⟨⟨5, .rhel⟩, false⟩], []⟩ } ⟨5, .rhel⟩
    "disable-nm-script" rfl rfl).1
  exact h.trans (by rfl)

/-! ## C1: ordering of the two task-runner invocations -/

/-- C1 counterexample: at a concrete Debian node with everything
succeeding, the per-host trace of `installPrerequisites` runs the
environment-file write and the kubeadm install first and the image
pre-pull last; in particular the pre-pull is not the first step, so
PullImages does not complete before SetupProxy and InstallKubeadm are
attempted. -/
theorem installPrerequisites_prepull_first_counterexample :
    (installPrerequisitesHost env0 state0 ⟨1, .debian⟩).fst
      = [.runRaw "env-file-script", .runRaw "debian-install",
         .run "sudo kubeadm config images pull --kubernetes-version 1.29.4"]
    ∧ (installPrerequisitesHost env0 state0 ⟨1, .debian⟩).fst.head?
        ≠ some (.run "sudo kubeadm config images pull --kubernetes-version 1.29.4") := by
  constructor
  · rfl
  · decide

/-- C1 amended: on each host, `installPrerequisites` runs the per-node
proxy-setup/kubeadm-install task first; the image pre-pull command is
issued after all of its effects, and only when that task succeeded. -/
theorem installPrerequisitesHost_prepull_after_install (e : Env) (s : State)
    (node : HostConfig) :
    (installPrerequisitesHost e s node).fst
      = (installPrerequisitesOnNode e s node).fst ++
        (match (installPrerequisitesOnNode e s node).snd with
         | .ok _ => [Effect.run (prePullImagesCmd s)]
         | .error _ => []) := by
  unfold installPrerequisitesHost prePullImagesOnNode
  rcases h : installPrerequisitesOnNode e s node with ⟨t, r⟩
  cases r with
  | error err => simp
  | ok _ =>
    cases hr : e.runResult (prePullImagesCmd s) with
    | error err => simp [hr]
    | ok v => simp [hr]

/-! ## C3: setupProxy with no proxy configured -/

/-- C3 counterexample: at a concrete state with all three proxy
variables empty, `setupProxy` still executes one remote command (the
environment-file write), so the SetupProxy step is not a no-op. -/
theorem setupProxy_noop_counterexample :
    state0.cluster.proxy.http = ""
    ∧ state0.cluster.proxy.https = ""
    ∧ state0.cluster.proxy.noProxy = ""
    ∧ (setupProxy env0 state0).fst ≠ []
    ∧ setupProxy env0 state0 = ([.runRaw "env-file-script"], .ok ()) := by
  refine ⟨rfl, rfl, rfl, ?_, rfl⟩
  decide

/-- C3 amended: when all three proxy variables are unset, the service
drop-in sub-step (`containerRuntimeEnvironment`) is a no-op returning
nil, and `setupProxy` performs exactly the environment-file write's
effects, succeeding whenever that write succeeds. -/
theorem setupProxy_no_proxy_skips_dropin (e : Env) (s : State)
    (h1 : s.cluster.proxy.http = "")
    (h2 : s.cluster.proxy.https = "")
    (h3 : s.cluster.proxy.noProxy = "") :
    containerRuntimeEnvironment e s = ([], .ok ())
    ∧ setupProxy e s =
        ((createEnvironmentFile e s).fst,
          match (createEnvironmentFile e s).snd with
          | .ok _ => .ok ()
          | .error err => .error (wrapErr "failed to create environment file" err)) := by
  have hcre : containerRuntimeEnvironment e s = ([], .ok ()) := by
    unfold containerRuntimeEnvironment
    simp [h1, h2, h3]
  refine ⟨hcre, ?_⟩
  unfold setupProxy
  rcases h : createEnvironmentFile e s with ⟨t, r⟩
  cases r with
  | error err => rfl
  | ok _ => simp [hcre]

/-- Witness for C3's amended theorem at a concrete no-proxy state. -/
theorem setupProxy_no_proxy_skips_dropin_witness :
    containerRuntimeEnvironment env0 state0 = ([], .ok ())
    ∧ setupProxy env0 state0 =
        ((createEnvironmentFile env0 state0).fst,
          match (createEnvironmentFile env0 state0).snd with
          | .ok _ => .ok ()
          | .error err => .error (wrapErr "failed to create environment file" err)) :=
  setupProxy_no_proxy_skips_dropin env0 state0 rfl rfl rfl

/-! ## C8: the force-reinstall flag in the per-OS install scripts -/

/-- C8 counterexample: with renderers that reflect the force flag in
the script text, flipping the run context's force-install flag changes
the command executed by the Debian procedure but leaves the Flatcar
procedure's invocation unchanged — the Flatcar script is rendered
without the force-reinstall flag. -/
theorem installKubeadm_force_flag_counterexample :
    installKubeadmFlatcar env0 { state0 with forceInstall := true }
      = installKubeadmFlatcar env0 { state0 with forceInstall := false }
    ∧ (installKubeadmDebian env0 { state0 with forceInstall := true }).fst
      ≠ (installKubeadmDebian env0 { state0 with forceInstall := false }).fst := by
  constructor
  · rfl
  · decide

/-- C8 amended: the Debian, CentOS and Amazon Linux install procedures
render their script from the cluster and the run context's
force-install flag and execute exactly that script; the Flatcar
procedure renders its script from the cluster alone, so its behaviour
is invariant under the force-install flag. -/
theorem installKubeadm_force_flag_amended (e : Env) (s : State) :
    (∀ cmd, e.kubeadmDebian s.cluster s.forceInstall = .ok cmd →
      (installKubeadmDebian e s).fst = [.runRaw cmd])
    ∧ (∀ cmd, e.kubeadmCentOS s.cluster s.forceInstall = .ok cmd →
      (installKubeadmCentOS e s).fst = [.runRaw cmd])
    ∧ (∀ cmd, e.kubeadmAmazonLinux s.cluster s.forceInstall = .ok cmd →
      (installKubeadmAmazonLinux e s).fst = [.runRaw cmd])
    ∧ (∀ cmd, e.kubeadmFlatcar s.cluster = .ok cmd →
      (installKubeadmFlatcar e s).fst = [.runRaw cmd])
    ∧ ∀ b : Bool, installKubeadmFlatcar e { s with forceInstall := b }
        = installKubeadmFlatcar e s := by
  refine ⟨?_, ?_, ?_, ?_, ?_⟩
  · intro cmd hcmd
    unfold installKubeadmDebian
    rw [hcmd]
    cases hr : e.runRawResult cmd <;> simp [hr]
  · intro cmd hcmd
    unfold installKubeadmCentOS
    rw [hcmd]
    cases hr : e.runRawResult cmd <;> simp [hr]
  · intro cmd hcmd
    unfold installKubeadmAmazonLinux
    rw [hcmd]
    cases hr : e.runRawResult cmd <;> simp [hr]
  · intro cmd hcmd
    unfold installKubeadmFlatcar
    rw [hcmd]
    cases hr : e.runRawResult cmd <;> simp [hr]
  · intro b
    rfl

/-- Witness for C8's amended theorem: the Debian procedure executes
exactly the script rendered with the (false) force flag. -/
theorem installKubeadm_force_flag_amended_witness :
    (installKubeadmDebian env0 state0).fst = [.runRaw "debian-install"] :=
  (installKubeadm_force_flag_amended env0 state0).1 "debian-install" rfl

/-! ## Bundle-path characterization of generateConfigurationFiles -/

/-- Adding a file appends exactly its path. -/
theorem bundlePaths_addFile (b : Bundle) (p c : String) :
    bundlePaths (addFile b p c) = bundlePaths b ++ [p] := by
  unfold bundlePaths addFile
  simp

/-- Whether the encryption block adds an entry on a successful run:
the outer gate holds and either a custom configuration is supplied or
a fresh one should be generated. -/
def encryptionEntryAdded (s : State) : Bool :=
  (s.shouldEnableEncryption || s.encryptionEnabled)
  && ((s.cluster.features.encryptionProviders.customEncryptionConfiguration != "")
      || s.shouldEnableEncryption)

/-- On success, the audit block appends exactly the audit-policy path
when static audit logging is enabled, and nothing otherwise. -/
theorem auditStep_ok_paths (e : Env) (s : State) (b b' : Bundle)
    (h : auditStep e s b = (b', .ok ())) :
    bundlePaths b' = bundlePaths b ++
      (if staticAuditLogEnabled s.cluster then ["cfg/audit-policy.yaml"] else []) := by
  unfold auditStep at h
  unfold staticAuditLogEnabled
  split at h
  · rename_i hsal
    simp at h
    simp [hsal, h]
  · rename_i sal hsal
    split at h
    · rename_i he
      split at h
      · simp at h
      · rename_i content hr
        simp at h
        simp [hsal, he, ← h, bundlePaths_addFile]
    · rename_i he
      simp at h
      simp only [Bool.not_eq_true] at he
      simp [hsal, he, h]

/-- On success, the pod-node-selector block appends exactly the
admission-config and podnodeselector paths when the feature is
enabled, and nothing otherwise. -/
theorem podNodeSelectorStep_ok_paths (e : Env) (s : State) (b b' : Bundle)
    (h : podNodeSelectorStep e s b = (b', .ok ())) :
    bundlePaths b' = bundlePaths b ++
      (if podNodeSelectorEnabled s.cluster then
        ["cfg/admission-config.yaml", "cfg/podnodeselector.yaml"] else []) := by
  unfold podNodeSelectorStep at h
  unfold podNodeSelectorEnabled
  split at h
  · rename_i hpns
    simp at h
    simp [hpns, h]
  · rename_i pns hpns
    split at h
    · rename_i he
      split at h
      · simp at h
      · rename_i admissionCfg hadm
        split at h
        · simp at h
        · rename_i content hr
          simp at h
          simp [hpns, he, ← h, bundlePaths_addFile]
    · rename_i he
      simp at h
      simp only [Bool.not_eq_true] at he
      simp [hpns, he, h]

/-- On success, the encryption block appends exactly the provider
config path when `encryptionEntryAdded`, and nothing otherwise. -/
theorem encryptionStep_ok_paths (e : Env) (s : State) (b b' : Bundle)
    (h : encryptionStep e s b = (b', .ok ())) :
    bundlePaths b' = bundlePaths b ++
      (if encryptionEntryAdded s then
        ["cfg/" ++ s.encryptionProviderConfigName] else []) := by
  unfold encryptionStep at h
  unfold encryptionEntryAdded
  split at h
  · rename_i hgate
    split at h
    · rename_i hcustom
      simp at h
      simp [hgate, hcustom, ← h, bundlePaths_addFile]
    · rename_i hcustom
      split at h
      · rename_i hshould
        split at h
        · simp at h
        · rename_i obj hobj
          split at h
          · simp at h
          · rename_i config hyaml
            simp at h
            simp [hgate, hshould, ← h, bundlePaths_addFile]
      · rename_i hshould
        simp at h
        simp only [Bool.not_eq_true] at hcustom hshould
        simp [hgate, hcustom, hshould, h]
  · rename_i hgate
    simp at h
    simp only [Bool.not_eq_true] at hgate
    simp [hgate, h]

/-- Full path characterization of a successful generation run. -/
theorem generateConfigurationFiles_ok_paths (e : Env) (s : State) (b : Bundle)
    (h : generateConfigurationFiles e s = (b, .ok ())) :
    bundlePaths b = bundlePaths s.configuration ++ ["cfg/cloud-config"]
      ++ (if staticAuditLogEnabled s.cluster then ["cfg/audit-policy.yaml"] else [])
      ++ (if podNodeSelectorEnabled s.cluster then
            ["cfg/admission-config.yaml", "cfg/podnodeselector.yaml"] else [])
      ++ (if encryptionEntryAdded s then
            ["cfg/" ++ s.encryptionProviderConfigName] else []) := by
  unfold generateConfigurationFiles at h
  dsimp only at h
  rcases ha : auditStep e s (addFile s.configuration "cfg/cloud-config"
      s.cluster.cloudProvider.cloudConfig) with ⟨b1, r1⟩
  rw [ha] at h
  cases r1 with
  | error err => simp at h
  | ok _ =>
    dsimp only at h
    rcases hp : podNodeSelectorStep e s b1 with ⟨b2, r2⟩
    rw [hp] at h
    cases r2 with
    | error err => simp at h
    | ok _ =>
      dsimp only at h
      have h1 := auditStep_ok_paths e s _ b1 ha
      have h2 := podNodeSelectorStep_ok_paths e s b1 b2 hp
      have h3 := encryptionStep_ok_paths e s b2 b h
      rw [h3, h2, h1, bundlePaths_addFile]

/-- C4: on every successful generation run starting from an empty
bundle (with an encryption config name that does not collide with the
fixed paths), the bundle contains cfg/cloud-config always, contains
cfg/audit-policy.yaml iff static audit logging is enabled, and
contains both cfg/admission-config.yaml and cfg/podnodeselector.yaml
iff the pod-node-selector feature is enabled. -/
theorem generateConfigurationFiles_entries (e : Env) (s : State) (b : Bundle)
    (hb : s.configuration = [])
    (hn1 : "cfg/" ++ s.encryptionProviderConfigName ≠ "cfg/audit-policy.yaml")
    (hn2 : "cfg/" ++ s.encryptionProviderConfigName ≠ "cfg/admission-config.yaml")
    (hn3 : "cfg/" ++ s.encryptionProviderConfigName ≠ "cfg/podnodeselector.yaml")
    (h : generateConfigurationFiles e s = (b, .ok ())) :
    "cfg/cloud-config" ∈ bundlePaths b
    ∧ ("cfg/audit-policy.yaml" ∈ bundlePaths b ↔ staticAuditLogEnabled s.cluster = true)
    ∧ (("cfg/admission-config.yaml" ∈ bundlePaths b
        ∧ "cfg/podnodeselector.yaml" ∈ bundlePaths b)
       ↔ podNodeSelectorEnabled s.cluster = true) := by
  have hp := generateConfigurationFiles_ok_paths e s b h
  rw [hb] at hp
  have hn1s := Ne.symm hn1
  have hn2s := Ne.symm hn2
  have hn3s := Ne.symm hn3
  by_cases hal : staticAuditLogEnabled s.cluster = true
    <;> by_cases hpn : podNodeSelectorEnabled s.cluster = true
    <;> by_cases hen : encryptionEntryAdded s = true
    <;> rw [hp]
    <;> simp [hal, hpn, hen, bundlePaths, hn1s, hn2s, hn3s]

/-- Witness for C4 at a concrete state with no optional features: the
bundle holds exactly the cloud-config entry. -/
theorem generateConfigurationFiles_entries_witness :
    "cfg/cloud-config" ∈ bundlePaths [("cfg/cloud-config", "cloud-cfg-content")]
    ∧ ("cfg/audit-policy.yaml" ∈ bundlePaths [("cfg/cloud-config", "cloud-cfg-content")]
        ↔ staticAuditLogEnabled state0.cluster = true)
    ∧ (("cfg/admission-config.yaml" ∈ bundlePaths [("cfg/cloud-config", "cloud-cfg-content")]
        ∧ "cfg/podnodeselector.yaml" ∈ bundlePaths [("cfg/cloud-config", "cloud-cfg-content")])
       ↔ podNodeSelectorEnabled state0.cluster = true) :=
  generateConfigurationFiles_entries env0 state0
    [("cfg/cloud-config", "cloud-cfg-content")]
    rfl (by decide) (by decide) (by decide) rfl

/-! ## C7: behaviour of the bundle on a failed generation -/

/-- The audit block never removes or alters existing entries. -/
theorem auditStep_fst_extends (e : Env) (s : State) (b : Bundle) :
    ∃ t, (auditStep e s b).fst = b ++ t := by
  unfold auditStep
  split
  · exact ⟨[], by simp⟩
  · split
    · split
      · exact ⟨[], by simp⟩
      · rename_i content hr
        exact ⟨[("cfg/audit-policy.yaml", content)], rfl⟩
    · exact ⟨[], by simp⟩

/-- The pod-node-selector block never removes or alters existing
entries. -/
theorem podNodeSelectorStep_fst_extends (e : Env) (s : State) (b : Bundle) :
    ∃ t, (podNodeSelectorStep e s b).fst = b ++ t := by
  unfold podNodeSelectorStep
  split
  · exact ⟨[], by simp⟩
  · split
    · split
      · exact ⟨[], by simp⟩
      · rename_i admissionCfg hadm
        split
        · rename_i err hr
          exact ⟨[("cfg/admission-config.yaml", admissionCfg)], rfl⟩
        · rename_i content hr
          exact ⟨[("cfg/admission-config.yaml", admissionCfg),
            ("cfg/podnodeselector.yaml", content)], by simp [addFile]⟩
    · exact ⟨[], by simp⟩

/-- The encryption block never removes or alters existing entries. -/
theorem encryptionStep_fst_extends (e : Env) (s : State) (b : Bundle) :
    ∃ t, (encryptionStep e s b).fst = b ++ t := by
  unfold encryptionStep
  split
  · split
    · exact ⟨[("cfg/" ++ s.encryptionProviderConfigName,
        s.cluster.features.encryptionProviders.customEncryptionConfiguration)], rfl⟩
    · split
      · split
        · exact ⟨[], by simp⟩
        · split
          · exact ⟨[], by simp⟩
          · rename_i config hyaml
            exact ⟨[("cfg/" ++ s.encryptionProviderConfigName, config)], rfl⟩
      · exact ⟨[], by simp⟩
  · exact ⟨[], by simp⟩

/-- Generation only appends: whatever the outcome, the exit bundle is
the entry bundle followed by the cloud-config entry and then whatever
the conditional blocks added before stopping. -/
theorem generateConfigurationFiles_fst_extends (e : Env) (s : State) :
    ∃ t, (generateConfigurationFiles e s).fst
      = s.configuration
        ++ ("cfg/cloud-config", s.cluster.cloudProvider.cloudConfig) :: t := by
  unfold generateConfigurationFiles
  dsimp only
  obtain ⟨t1, ht1⟩ := auditStep_fst_extends e s (addFile s.configuration "cfg/cloud-config"
    s.cluster.cloudProvider.cloudConfig)
  rcases ha : auditStep e s (addFile s.configuration "cfg/cloud-config"
      s.cluster.cloudProvider.cloudConfig) with ⟨b1, r1⟩
  rw [ha] at ht1
  cases r1 with
  | error err => exact ⟨t1, by simpa [addFile] using ht1⟩
  | ok _ =>
    dsimp only
    obtain ⟨t2, ht2⟩ := podNodeSelectorStep_fst_extends e s b1
    rcases hp : podNodeSelectorStep e s b1 with ⟨b2, r2⟩
    rw [hp] at ht2
    cases r2 with
    | error err =>
      refine ⟨t1 ++ t2, ?_⟩
      simp only at ht1 ht2
      simp [ht2, ht1, addFile]
    | ok _ =>
      dsimp only
      obtain ⟨t3, ht3⟩ := encryptionStep_fst_extends e s b2
      refine ⟨t1 ++ (t2 ++ t3), ?_⟩
      dsimp only at ht1 ht2
      rw [ht3, ht2, ht1]
      simp [addFile]

/-- C7 counterexample: with static audit logging enabled and an
unreadable policy file, generation fails but the bundle is not left
unchanged from its state at entry: the cloud-config entry added before
the failing add survives. -/
theorem generateConfigurationFiles_atomic_counterexample :
    (generateConfigurationFiles
        { env0 with readFile := fun _ _ => .error ⟨"read failed"⟩ }
        { state0 with cluster :=
            { cluster0 with features :=
              { cluster0.features with
                  staticAuditLog := some ⟨true, ⟨"audit/policy.yaml"⟩⟩ } } }).snd
      = .error ⟨"unable to add policy file: read failed"⟩
    ∧ (generateConfigurationFiles
        { env0 with readFile := fun _ _ => .error ⟨"read failed"⟩ }
        { state0 with cluster :=
            { cluster0 with features :=
              { cluster0.features with
                  staticAuditLog := some ⟨true, ⟨"audit/policy.yaml"⟩⟩ } } }).fst
      = [("cfg/cloud-config", "cloud-cfg-content")]
    ∧ [("cfg/cloud-config", "cloud-cfg-content")] ≠ state0.configuration := by
  refine ⟨rfl, rfl, ?_⟩
  decide

/-- C7 amended: on every input on which generation returns an error,
the bundle at exit is not rolled back: it extends the entry bundle
with the cloud-config entry and whatever the conditional blocks added
before the failure (so existing entries are preserved, but the step is
not atomic). -/
theorem generateConfigurationFiles_error_keeps_added (e : Env) (s : State) (err : Err)
    (_h : (generateConfigurationFiles e s).snd = .error err) :
    ∃ t, (generateConfigurationFiles e s).fst
      = s.configuration
        ++ ("cfg/cloud-config", s.cluster.cloudProvider.cloudConfig) :: t :=
  generateConfigurationFiles_fst_extends e s

/-- Witness for C7's amended theorem at the concrete failing input. -/
theorem generateConfigurationFiles_error_keeps_added_witness :
    ∃ t, (generateConfigurationFiles
        { env0 with readFile := fun _ _ => .error ⟨"read failed"⟩ }
        { state0 with cluster :=
            { cluster0 with features :=
              { cluster0.features with
                  staticAuditLog := some ⟨true, ⟨"audit/policy.yaml"⟩⟩ } } }).fst
      = [] ++ ("cfg/cloud-config", "cloud-cfg-content") :: t :=
  generateConfigurationFiles_error_keeps_added
    { env0 with readFile := fun _ _ => .error ⟨"read failed"⟩ }
    { state0 with cluster :=
        { cluster0 with features :=
          { cluster0.features with
              staticAuditLog := some ⟨true, ⟨"audit/policy.yaml"⟩⟩ } } }
    ⟨"unable to add policy file: read failed"⟩ rfl

/-! ## C10: encryption enabled but nothing to generate -/

/-- C10: when encryption is already enabled, no fresh config should be
generated, and no custom configuration is supplied, the encryption
block adds nothing to the bundle and succeeds; consequently the whole
generation succeeds (returning the bundle produced by the earlier
blocks untouched) whenever those earlier blocks succeed. -/
theorem generateConfigurationFiles_enc_noop (e : Env) (s : State)
    (h1 : s.encryptionEnabled = true)
    (h2 : s.shouldEnableEncryption = false)
    (h3 : s.cluster.features.encryptionProviders.customEncryptionConfiguration = "") :
    (∀ b, encryptionStep e s b = (b, .ok ()))
    ∧ ∀ b1 b2,
        auditStep e s (addFile s.configuration "cfg/cloud-config"
          s.cluster.cloudProvider.cloudConfig) = (b1, .ok ())
        → podNodeSelectorStep e s b1 = (b2, .ok ())
        → generateConfigurationFiles e s = (b2, .ok ()) := by
  have henc : ∀ b, encryptionStep e s b = (b, .ok ()) := by
    intro b
    unfold encryptionStep
    simp [h1, h2, h3]
  refine ⟨henc, ?_⟩
  intro b1 b2 ha hp
  unfold generateConfigurationFiles
  dsimp only
  rw [ha]
  dsimp only
  rw [hp]
  exact henc b2

/-- Witness for C10 at a concrete state with encryption already
enabled and nothing else configured. -/
theorem generateConfigurationFiles_enc_noop_witness :
    generateConfigurationFiles env0 { state0 with encryptionEnabled := true }
      = ([("cfg/cloud-config", "cloud-cfg-content")], .ok ()) :=
  (generateConfigurationFiles_enc_noop env0 { state0 with encryptionEnabled := true }
      rfl rfl rfl).2
    [("cfg/cloud-config", "cloud-cfg-content")]
    [("cfg/cloud-config", "cloud-cfg-content")] rfl rfl

end KubeOne
